import Mathlib

/-!
Shallow embedding of `api/services/hit_testing_service.py` (class
`HitTestingService`): the hit-testing retrieval orchestration and the
2D projection of query/fragment embeddings.

External collaborators (embedding provider, search strategies, rerank
runner, the t-SNE solver and the random noise draws, the
`document_segments` table) are modelled as oracle fields of an `Env`
record.  Side effects that the claims talk about (which strategy ran,
the rerank call, the `DatasetQuery` log write, the t-SNE solver call)
are recorded in an event trace returned alongside the result.
Machine floats are modelled as rationals.
-/

set_option maxRecDepth 10000

namespace HitTesting

/-- A 2D point, mirroring the `{'x': ..., 'y': ...}` dicts of the source. -/
structure Position where
  x : ℚ
  y : ℚ
deriving DecidableEq

def zero_position : Position := { x := 0, y := 0 }

/-- A row of the `document_segments` table, restricted to the columns the
service filters on. -/
structure DocumentSegment where
  dataset_id : String
  enabled : Bool
  status : String
  index_node_id : String
deriving DecidableEq

/-- A langchain `Document` as used by the service: its text, the
`metadata['doc_id']` index key and the optional `metadata['score']`. -/
structure Document where
  page_content : String
  doc_id : String
  score : Option ℚ
deriving DecidableEq

/-- One entry of the response's `records` list. -/
structure HitRecord where
  segment : DocumentSegment
  score : Option ℚ
  tsne_position : Position
deriving DecidableEq

/-- The `query` part of the response. -/
structure HitQuery where
  content : String
  tsne_position : Position
deriving DecidableEq

/-- The dict returned by `retrieve` / `compact_retrieve_response`. -/
structure HitResult where
  query : HitQuery
  records : List HitRecord
deriving DecidableEq

/-- The `reranking_model` sub-dict of a retrieval model. -/
structure RerankingModel where
  reranking_provider_name : String
  reranking_model_name : String
deriving DecidableEq

/-- The retrieval-model dict.  `score_threshold` is optional because the
hardcoded default dict carries no such key and the code only reads it when
`score_threshold_enabled` is true. -/
structure RetrievalConfig where
  search_method : String
  reranking_enable : Bool
  reranking_model : RerankingModel
  top_k : Nat
  score_threshold_enabled : Bool
  score_threshold : Option ℚ
deriving DecidableEq

/-- The fields of a `Dataset` row that `retrieve` reads. -/
structure Dataset where
  id : String
  tenant_id : String
  embedding_model_provider : String
  embedding_model : String
  available_document_count : Nat
  available_segment_count : Nat
  retrieval_model : Option RetrievalConfig
deriving DecidableEq

structure Account where
  id : String
deriving DecidableEq

structure ModelInstance where
  name : String
deriving DecidableEq

inductive ModelType where
  | text_embedding
  | rerank
deriving DecidableEq

/-- Observable side effects of one `retrieve` call, in order. -/
inductive Event where
  | semanticSearch
  | fullTextSearch
  | rerankCall
  | logWrite (dataset_id : String) (content : String) (source : String)
      (created_by_role : String) (created_by : String)
  | tsneSolve
deriving DecidableEq

def Event.isSemantic : Event → Bool
  | .semanticSearch => true
  | _ => false

def Event.isFullText : Event → Bool
  | .fullTextSearch => true
  | _ => false

def Event.isRerank : Event → Bool
  | .rerankCall => true
  | _ => false

def Event.isLogWrite : Event → Bool
  | .logWrite _ _ _ _ _ => true
  | _ => false

/-- Oracles for everything external to the service: the model manager,
the two search strategies, the rerank runner, the embedding provider,
the random draws (`np.random.normal`, indexed by draw number and
component) and the t-SNE solver (given perplexity, early exaggeration
and the noised data).  `segments` is the `document_segments` table. -/
structure Env where
  getModelInstance : String → ModelType → String → String → Except String ModelInstance
  embeddingSearch : String → String → Nat → Option ℚ → Option RerankingModel → String → List Document
  fullTextIndexSearch : String → String → String → Option ℚ → Nat → Option RerankingModel → List Document
  rerankRun : String → List Document → Option ℚ → Nat → String → List Document
  embedQuery : String → List ℚ
  embedDocuments : List String → List (List ℚ)
  dupNoise : Nat → Nat → ℚ
  tsneNoise : Nat → Nat → ℚ
  tsneSolve : ℚ → ℚ → List (List ℚ) → List Position
  segments : List DocumentSegment

/-- The module-level `default_retrieval_model` dict. -/
def default_retrieval_model : RetrievalConfig :=
  { search_method := "semantic_search"
    reranking_enable := false
    reranking_model := { reranking_provider_name := "", reranking_model_name := "" }
    top_k := 2
    score_threshold_enabled := false
    score_threshold := none }

/-- `retrieval_model['score_threshold'] if retrieval_model['score_threshold_enabled'] else None`. -/
def score_threshold_arg (rm : RetrievalConfig) : Option ℚ :=
  if rm.score_threshold_enabled then rm.score_threshold else none

/-- `retrieval_model['reranking_model'] if retrieval_model['reranking_enable'] else None`. -/
def reranking_model_arg (rm : RetrievalConfig) : Option RerankingModel :=
  if rm.reranking_enable then some rm.reranking_model else none

/-- `if not retrieval_model: retrieval_model = dataset.retrieval_model if
dataset.retrieval_model else default_retrieval_model` (an empty/missing
argument dict is `none`). -/
def resolve_retrieval_model (dataset : Dataset) (arg : Option RetrievalConfig) : RetrievalConfig :=
  match arg with
  | none => dataset.retrieval_model.getD default_retrieval_model
  | some rm => rm

/-- Elementwise sum of two vectors (`document_embeddings[i] += perturbation`). -/
def addVec (v p : List ℚ) : List ℚ := List.zipWith (fun a b => a + b) v p

/-- The `np.random.normal(0, 1e-4, n)` draw number `i`, as the oracle's
components `0, ..., n-1` of draw `i`. -/
def perturbationFor (noise : Nat → Nat → ℚ) (i : Nat) (n : Nat) : List ℚ :=
  (List.range n).map fun j => noise i j

/-- The degenerate-vector correction loop of `compact_retrieve_response`:
each document embedding that equals the query embedding elementwise gets
a fresh perturbation added; `i` counts the loop index (= draw number). -/
def perturbEmbeddings (noise : Nat → Nat → ℚ) (q : List ℚ) :
    List (List ℚ) → Nat → List (List ℚ)
  | [], _ => []
  | e :: es, i =>
      (if e = q then addVec e (perturbationFor noise i e.length) else e) ::
        perturbEmbeddings noise q es (i + 1)

/-- Add `noise j` to component `j` of a row. -/
def addNoiseRow (noise : Nat → ℚ) : List ℚ → Nat → List ℚ
  | [], _ => []
  | x :: xs, j => (x + noise j) :: addNoiseRow noise xs (j + 1)

/-- `np.array(embeddings) + np.random.normal(0, 1e-4, shape)`: fresh noise
on every component of every vector. -/
def addNoiseAll (noise : Nat → Nat → ℚ) : List (List ℚ) → Nat → List (List ℚ)
  | [], _ => []
  | row :: rows, i => addNoiseRow (noise i) row 0 :: addNoiseAll noise rows (i + 1)

/-- Squared Euclidean distance between two vectors (over the common prefix). -/
def distSq (u v : List ℚ) : ℚ := (List.zipWith (fun a b => (a - b) ^ 2) u v).sum

/-- `perplexity = embedding_length / 2 + 1` (Python float division). -/
def perplexity_raw (count : Nat) : ℚ := (count : ℚ) / 2 + 1

/-- `if perplexity >= embedding_length: perplexity = max(embedding_length - 1, 1)`. -/
def perplexity_final (count : Nat) : ℚ :=
  if perplexity_raw count ≥ (count : ℚ) then max ((count : ℚ) - 1) 1
  else perplexity_raw count

/-- `get_tsne_positions_from_embeddings`: short-circuit at ≤ 1 vector,
otherwise noise all vectors, compute the clamped perplexity and run the
solver (`TSNE(n_components=2, perplexity=..., early_exaggeration=12.0)`).
The second component records whether the solver ran. -/
def get_tsne_positions_from_embeddings (env : Env) (embeddings : List (List ℚ)) :
    List Position × List Event :=
  if embeddings.length ≤ 1 then ([zero_position], [])
  else
    (env.tsneSolve (perplexity_final embeddings.length) 12
        (addNoiseAll env.tsneNoise embeddings 0),
      [Event.tsneSolve])

/-- The segment query of `compact_retrieve_response`:
`db.session.query(DocumentSegment).filter(dataset_id == ..., enabled == True,
status == 'completed', index_node_id == ...).first()`. -/
def segment_lookup_first (segs : List DocumentSegment) (dataset_id index_node_id : String) :
    Option DocumentSegment :=
  (segs.filter fun s =>
    s.dataset_id == dataset_id && s.enabled && s.status == "completed" &&
      s.index_node_id == index_node_id).head?

/-- The record-assembly loop of `compact_retrieve_response`: for each
document, look up its segment; if none matches, advance the position
cursor `i` without emitting a record. -/
def buildRecords (segs : List DocumentSegment) (dataset_id : String)
    (positions : List Position) : List Document → Nat → List HitRecord
  | [], _ => []
  | d :: ds, i =>
      match segment_lookup_first segs dataset_id d.doc_id with
      | none => buildRecords segs dataset_id positions ds (i + 1)
      | some seg =>
          { segment := seg, score := d.score,
            tsne_position := positions.getD i zero_position } ::
            buildRecords segs dataset_id positions ds (i + 1)

/-- `text_embeddings = [query_embedding] + (documents' embeddings after the
degenerate-vector correction)`. -/
def text_embeddings_of (env : Env) (query : String) (documents : List Document) :
    List (List ℚ) :=
  env.embedQuery query ::
    perturbEmbeddings env.dupNoise (env.embedQuery query)
      (env.embedDocuments (documents.map fun d => d.page_content)) 0

/-- All projected positions (query first) together with the solver events. -/
def projection_output (env : Env) (query : String) (documents : List Document) :
    List Position × List Event :=
  get_tsne_positions_from_embeddings env (text_embeddings_of env query documents)

/-- `compact_retrieve_response`: project, pop the query's position, then
assemble the surviving records. -/
def compact_retrieve_response (env : Env) (dataset : Dataset) (query : String)
    (documents : List Document) : HitResult × List Event :=
  let out := projection_output env query documents
  ({ query := { content := query, tsne_position := out.1.headD zero_position },
     records := buildRecords env.segments dataset.id out.1.tail documents 0 },
    out.2)

/-- The short-circuit response for an empty dataset. -/
def empty_retrieval_result (query : String) : HitResult :=
  { query := { content := query, tsne_position := zero_position }, records := [] }

/-- The `DatasetQuery(dataset_id=..., content=query, source='hit_testing',
created_by_role='account', created_by=account.id)` write. -/
def log_event (dataset : Dataset) (query : String) (account : Account) : Event :=
  Event.logWrite dataset.id query "hit_testing" "account" account.id

/-- The semantic-search branch: runs `RetrievalService.embedding_search`
when the method is semantic or hybrid. -/
def semantic_branch (env : Env) (dataset_id query : String) (rm : RetrievalConfig) :
    List Document × List Event :=
  if rm.search_method = "semantic_search" ∨ rm.search_method = "hybrid_search" then
    (env.embeddingSearch dataset_id query rm.top_k (score_threshold_arg rm)
        (reranking_model_arg rm) rm.search_method,
      [Event.semanticSearch])
  else ([], [])

/-- The full-text branch: runs `RetrievalService.full_text_index_search`
when the method is full-text or hybrid. -/
def full_text_branch (env : Env) (dataset_id query : String) (rm : RetrievalConfig) :
    List Document × List Event :=
  if rm.search_method = "full_text_search" ∨ rm.search_method = "hybrid_search" then
    (env.fullTextIndexSearch dataset_id query rm.search_method
        (score_threshold_arg rm) rm.top_k (reranking_model_arg rm),
      [Event.fullTextSearch])
  else ([], [])

/-- Everything after the join of the strategy threads: the hybrid rerank
(fetching the rerank model can fail), the unconditional log write, and the
delegation to `compact_retrieve_response`. -/
def finish_retrieve (env : Env) (dataset : Dataset) (query : String) (account : Account)
    (rm : RetrievalConfig) (all_documents : List Document) (pre_events : List Event) :
    Except String HitResult × List Event :=
  if rm.search_method = "hybrid_search" then
    match env.getModelInstance dataset.tenant_id ModelType.rerank
        rm.reranking_model.reranking_provider_name rm.reranking_model.reranking_model_name with
    | .error e => (.error e, pre_events)
    | .ok _ =>
        let reranked := env.rerankRun query all_documents (score_threshold_arg rm)
          rm.top_k ("account-" ++ account.id)
        let proj := compact_retrieve_response env dataset query reranked
        (.ok proj.1,
          pre_events ++ [Event.rerankCall, log_event dataset query account] ++ proj.2)
  else
    let proj := compact_retrieve_response env dataset query all_documents
    (.ok proj.1, pre_events ++ [log_event dataset query account] ++ proj.2)

/-- `HitTestingService.retrieve`: empty-dataset short circuit, retrieval
model resolution, embedding-model fetch (can fail), the two strategy
branches, then `finish_retrieve`. -/
def retrieve (env : Env) (dataset : Dataset) (query : String) (account : Account)
    (arg : Option RetrievalConfig) : Except String HitResult × List Event :=
  if dataset.available_document_count = 0 ∨ dataset.available_segment_count = 0 then
    (.ok (empty_retrieval_result query), [])
  else
    let rm := resolve_retrieval_model dataset arg
    match env.getModelInstance dataset.tenant_id ModelType.text_embedding
        dataset.embedding_model_provider dataset.embedding_model with
    | .error e => (.error e, [])
    | .ok _ =>
        let sem := semantic_branch env dataset.id query rm
        let ft := full_text_branch env dataset.id query rm
        finish_retrieve env dataset query account rm (sem.1 ++ ft.1) (sem.2 ++ ft.2)

/-- The event trace of one `retrieve` call. -/
def retrieve_trace (env : Env) (dataset : Dataset) (query : String) (account : Account)
    (arg : Option RetrievalConfig) : List Event :=
  (retrieve env dataset query account arg).2

/-- `hit_testing_args_check`: `if not query or len(query) > 250: raise ValueError(...)`. -/
def hit_testing_args_check (query : String) : Except String Unit :=
  if query = "" ∨ 250 < query.length then
    .error "Query is required and cannot exceed 250 characters"
  else .ok ()

/-! ### Concrete fixtures used by the witness theorems -/

/-- An environment in which every external call succeeds. -/
def testEnv : Env :=
  { getModelInstance := fun _ _ _ _ => .ok { name := "m" }
    embeddingSearch := fun _ _ _ _ _ _ => []
    fullTextIndexSearch := fun _ _ _ _ _ _ => []
    rerankRun := fun _ docs _ _ _ => docs
    embedQuery := fun _ => [1]
    embedDocuments := fun texts => texts.map fun _ => [1]
    dupNoise := fun _ _ => 1 / 10000
    tsneNoise := fun _ _ => 0
    tsneSolve := fun _ _ data => data.map fun _ => zero_position
    segments := [] }

/-- An environment whose model manager never resolves a model. -/
def failEnv : Env :=
  { testEnv with getModelInstance := fun _ _ _ _ => .error "model not resolvable" }

def testAccount : Account := { id := "acct" }

/-- A dataset with zero available documents. -/
def emptyDataset : Dataset :=
  { id := "ds0", tenant_id := "t", embedding_model_provider := "p",
    embedding_model := "m", available_document_count := 0,
    available_segment_count := 0, retrieval_model := none }

/-- A dataset with available documents and segments. -/
def testDataset : Dataset :=
  { id := "ds1", tenant_id := "t", embedding_model_provider := "p",
    embedding_model := "m", available_document_count := 3,
    available_segment_count := 5, retrieval_model := none }

def semanticConfig : RetrievalConfig :=
  { default_retrieval_model with search_method := "semantic_search" }

def fullTextConfig : RetrievalConfig :=
  { default_retrieval_model with search_method := "full_text_search" }

def hybridConfig : RetrievalConfig :=
  { default_retrieval_model with search_method := "hybrid_search" }

/-! ### Helper lemmas -/

theorem List.tail_getD {α : Type} (l : List α) (i : Nat) (d : α) :
    l.tail.getD i d = l.getD (i + 1) d := by
  cases l <;> rfl

theorem List.headD_eq_getD_zero {α : Type} (l : List α) (d : α) :
    l.headD d = l.getD 0 d := by
  cases l <;> rfl

/-- The events emitted by the projection step are at most one solver call. -/
theorem projection_events_cases (env : Env) (query : String) (documents : List Document) :
    (projection_output env query documents).2 = [] ∨
      (projection_output env query documents).2 = [Event.tsneSolve] := by
  unfold projection_output get_tsne_positions_from_embeddings
  split
  · exact Or.inl rfl
  · exact Or.inr rfl

theorem compact_events_eq (env : Env) (dataset : Dataset) (query : String)
    (documents : List Document) :
    (compact_retrieve_response env dataset query documents).2 =
      (projection_output env query documents).2 := rfl

/-! ### C2: empty-dataset short circuit -/

/-- C2: for a dataset with zero available documents or zero available
segments, `retrieve` returns an empty records list with query position
(0, 0), and the event trace is empty: no search strategy is invoked and
no `DatasetQuery` log entry is written. -/
theorem retrieve_empty_dataset_short_circuit (env : Env) (dataset : Dataset)
    (query : String) (account : Account) (arg : Option RetrievalConfig)
    (h : dataset.available_document_count = 0 ∨ dataset.available_segment_count = 0) :
    retrieve env dataset query account arg =
      (.ok { query := { content := query, tsne_position := { x := 0, y := 0 } },
             records := [] },
        []) := by
  unfold retrieve
  rw [if_pos h]
  rfl

/-- Witness for C2 at a concrete empty dataset. -/
theorem retrieve_empty_dataset_short_circuit_witness :
    emptyDataset.available_document_count = 0 ∧
      retrieve testEnv emptyDataset "q" testAccount none =
        (.ok { query := { content := "q", tsne_position := { x := 0, y := 0 } },
               records := [] },
          []) :=
  ⟨rfl, retrieve_empty_dataset_short_circuit testEnv emptyDataset "q" testAccount none
    (Or.inl rfl)⟩

/-! ### C10: short circuit precedes config defaulting and model construction -/

/-- C10: the empty-dataset short circuit is evaluated before the
retrieval-model defaulting and before the embedding-model fetch: with an
empty supplied configuration, no saved dataset configuration, and a model
manager that never resolves any model, `retrieve` still returns the empty
result without an error. -/
theorem retrieve_short_circuit_before_config_and_model (env : Env) (dataset : Dataset)
    (query : String) (account : Account)
    (h : dataset.available_document_count = 0 ∨ dataset.available_segment_count = 0)
    (_hmodel : ∀ t mt p m, ∃ e, env.getModelInstance t mt p m = .error e)
    (_hsaved : dataset.retrieval_model = none) :
    (retrieve env dataset query account none).1 = .ok (empty_retrieval_result query) := by
  unfold retrieve
  rw [if_pos h]

/-- Witness for C10: empty dataset, no saved config, unresolvable model. -/
theorem retrieve_short_circuit_before_config_and_model_witness :
    emptyDataset.available_segment_count = 0 ∧
      (retrieve failEnv emptyDataset "q" testAccount none).1 =
        .ok (empty_retrieval_result "q") :=
  ⟨rfl, retrieve_short_circuit_before_config_and_model failEnv emptyDataset "q" testAccount
    (Or.inr rfl) (fun _ _ _ _ => ⟨"model not resolvable", rfl⟩) rfl⟩

/-! ### C7: query validation -/

/-- C7: `hit_testing_args_check` errors exactly on the empty query and on
queries longer than 250 characters, and succeeds on every non-empty query
of length at most 250. -/
theorem hit_testing_args_check_spec (q : String) :
    ((q = "" ∨ 250 < q.length) →
      hit_testing_args_check q =
        .error "Query is required and cannot exceed 250 characters") ∧
    (q ≠ "" → q.length ≤ 250 → hit_testing_args_check q = .ok ()) := by
  constructor
  · intro h
    unfold hit_testing_args_check
    rw [if_pos h]
  · intro hne hle
    unfold hit_testing_args_check
    rw [if_neg]
    rintro (h | h)
    · exact hne h
    · exact absurd hle (by omega)

/-- Witness for C7: a 251-character query errors, a 250-character one passes. -/
theorem hit_testing_args_check_spec_witness :
    hit_testing_args_check (String.mk (List.replicate 251 'a')) =
        .error "Query is required and cannot exceed 250 characters" ∧
      hit_testing_args_check (String.mk (List.replicate 250 'a')) = .ok () :=
  ⟨(hit_testing_args_check_spec (String.mk (List.replicate 251 'a'))).1
      (Or.inr (by decide)),
    (hit_testing_args_check_spec (String.mk (List.replicate 250 'a'))).2
      (by decide) (by decide)⟩

/-! ### C8: degenerate single-item projection -/

/-- C8: a collection of at most one vector yields the single position
(0, 0), with no solver event and a result independent of every oracle
(so no noise is drawn and no dimensionality reduction runs). -/
theorem get_tsne_single_position (env : Env) (embeddings : List (List ℚ))
    (h : embeddings.length ≤ 1) :
    get_tsne_positions_from_embeddings env embeddings = ([{ x := 0, y := 0 }], []) := by
  unfold get_tsne_positions_from_embeddings
  rw [if_pos h]
  rfl

/-- Witness for C8 at a concrete one-vector collection. -/
theorem get_tsne_single_position_witness :
    [[(3 : ℚ), 4]].length ≤ 1 ∧
      get_tsne_positions_from_embeddings testEnv [[(3 : ℚ), 4]] =
        ([{ x := 0, y := 0 }], []) :=
  ⟨by decide, get_tsne_single_position testEnv [[(3 : ℚ), 4]] (by decide)⟩

/-! ### C5: perplexity computation and clamp -/

/-- C5: for a collection of `count ≥ 2` vectors, the positioning step runs
the solver with the perplexity `count / 2 + 1`, clamped down to
`max (count - 1) 1` whenever it is at least `count`; for `count = 2` the
pre-clamp value is 2, the clamp triggers, and the final perplexity is 1. -/
theorem tsne_perplexity_clamp (env : Env) (embeddings : List (List ℚ))
    (h : 2 ≤ embeddings.length) :
    get_tsne_positions_from_embeddings env embeddings =
      (env.tsneSolve (perplexity_final embeddings.length) 12
          (addNoiseAll env.tsneNoise embeddings 0),
        [Event.tsneSolve]) ∧
    perplexity_raw embeddings.length = (embeddings.length : ℚ) / 2 + 1 ∧
    (perplexity_raw embeddings.length ≥ (embeddings.length : ℚ) →
      perplexity_final embeddings.length = max ((embeddings.length : ℚ) - 1) 1) ∧
    (¬ perplexity_raw embeddings.length ≥ (embeddings.length : ℚ) →
      perplexity_final embeddings.length = perplexity_raw embeddings.length) ∧
    (perplexity_raw embeddings.length ≥ (embeddings.length : ℚ) ↔ embeddings.length = 2) ∧
    (embeddings.length = 2 →
      perplexity_raw 2 = 2 ∧ perplexity_raw 2 ≥ (2 : ℚ) ∧ perplexity_final 2 = 1) := by
  refine ⟨?_, rfl, ?_, ?_, ?_, ?_⟩
  · unfold get_tsne_positions_from_embeddings
    rw [if_neg (by omega)]
  · intro hge
    unfold perplexity_final
    rw [if_pos hge]
  · intro hlt
    unfold perplexity_final
    rw [if_neg hlt]
  · constructor
    · intro hge
      unfold perplexity_raw at hge
      have : (embeddings.length : ℚ) ≤ 2 := by linarith
      have : embeddings.length ≤ 2 := by exact_mod_cast this
      omega
    · intro h2
      rw [h2]
      unfold perplexity_raw
      norm_num
  · intro h2
    refine ⟨by norm_num [perplexity_raw], by norm_num [perplexity_raw], ?_⟩
    unfold perplexity_final
    rw [if_pos (by norm_num [perplexity_raw])]
    norm_num

/-- Witness for C5 at a concrete two-vector collection. -/
theorem tsne_perplexity_clamp_witness :
    2 ≤ [[(0 : ℚ)], [1]].length ∧
      perplexity_raw [[(0 : ℚ)], [1]].length = 2 ∧
      perplexity_final [[(0 : ℚ)], [1]].length = 1 :=
  ⟨by decide,
    ((tsne_perplexity_clamp testEnv [[(0 : ℚ)], [1]] (by decide)).2.2.2.2.2 rfl).1,
    ((tsne_perplexity_clamp testEnv [[(0 : ℚ)], [1]] (by decide)).2.2.2.2.2 rfl).2.2⟩

/-! ### Reduction lemmas for `retrieve` -/

/-- On a non-empty dataset with a resolvable embedding model and a supplied
configuration, `retrieve` runs the two strategy branches and finishes. -/
theorem retrieve_nonempty_eq (env : Env) (dataset : Dataset) (query : String)
    (account : Account) (cfg : RetrievalConfig) (inst : ModelInstance)
    (hd : dataset.available_document_count ≠ 0)
    (hs : dataset.available_segment_count ≠ 0)
    (hemb : env.getModelInstance dataset.tenant_id ModelType.text_embedding
      dataset.embedding_model_provider dataset.embedding_model = .ok inst) :
    retrieve env dataset query account (some cfg) =
      finish_retrieve env dataset query account cfg
        ((semantic_branch env dataset.id query cfg).1 ++
          (full_text_branch env dataset.id query cfg).1)
        ((semantic_branch env dataset.id query cfg).2 ++
          (full_text_branch env dataset.id query cfg).2) := by
  unfold retrieve
  rw [if_neg (by rintro (h | h) <;> [exact hd h; exact hs h])]
  rw [hemb]
  rfl

theorem finish_retrieve_not_hybrid (env : Env) (dataset : Dataset) (query : String)
    (account : Account) (cfg : RetrievalConfig) (docs : List Document)
    (pre : List Event) (hm : cfg.search_method ≠ "hybrid_search") :
    finish_retrieve env dataset query account cfg docs pre =
      (.ok (compact_retrieve_response env dataset query docs).1,
        pre ++ [log_event dataset query account] ++
          (compact_retrieve_response env dataset query docs).2) := by
  unfold finish_retrieve
  rw [if_neg hm]

theorem finish_retrieve_hybrid (env : Env) (dataset : Dataset) (query : String)
    (account : Account) (cfg : RetrievalConfig) (docs : List Document)
    (pre : List Event) (ri : ModelInstance)
    (hm : cfg.search_method = "hybrid_search")
    (hri : env.getModelInstance dataset.tenant_id ModelType.rerank
      cfg.reranking_model.reranking_provider_name
      cfg.reranking_model.reranking_model_name = .ok ri) :
    finish_retrieve env dataset query account cfg docs pre =
      (.ok (compact_retrieve_response env dataset query
          (env.rerankRun query docs (score_threshold_arg cfg) cfg.top_k
            ("account-" ++ account.id))).1,
        pre ++ [Event.rerankCall, log_event dataset query account] ++
          (compact_retrieve_response env dataset query
            (env.rerankRun query docs (score_threshold_arg cfg) cfg.top_k
              ("account-" ++ account.id))).2) := by
  unfold finish_retrieve
  rw [if_pos hm, hri]

theorem semantic_branch_events_cases (env : Env) (dataset_id query : String)
    (cfg : RetrievalConfig) :
    (semantic_branch env dataset_id query cfg).2 = [] ∨
      (semantic_branch env dataset_id query cfg).2 = [Event.semanticSearch] := by
  unfold semantic_branch
  split
  · exact Or.inr rfl
  · exact Or.inl rfl

theorem full_text_branch_events_cases (env : Env) (dataset_id query : String)
    (cfg : RetrievalConfig) :
    (full_text_branch env dataset_id query cfg).2 = [] ∨
      (full_text_branch env dataset_id query cfg).2 = [Event.fullTextSearch] := by
  unfold full_text_branch
  split
  · exact Or.inr rfl
  · exact Or.inl rfl

theorem semantic_branch_selected (env : Env) (dataset_id query : String)
    (cfg : RetrievalConfig)
    (hm : cfg.search_method = "semantic_search" ∨ cfg.search_method = "hybrid_search") :
    (semantic_branch env dataset_id query cfg).2 = [Event.semanticSearch] := by
  unfold semantic_branch
  rw [if_pos hm]

theorem semantic_branch_skipped (env : Env) (dataset_id query : String)
    (cfg : RetrievalConfig) (hm : cfg.search_method = "full_text_search") :
    (semantic_branch env dataset_id query cfg).2 = [] := by
  unfold semantic_branch
  rw [if_neg (by rw [hm]; decide)]

theorem full_text_branch_selected (env : Env) (dataset_id query : String)
    (cfg : RetrievalConfig)
    (hm : cfg.search_method = "full_text_search" ∨ cfg.search_method = "hybrid_search") :
    (full_text_branch env dataset_id query cfg).2 = [Event.fullTextSearch] := by
  unfold full_text_branch
  rw [if_pos hm]

theorem full_text_branch_skipped (env : Env) (dataset_id query : String)
    (cfg : RetrievalConfig) (hm : cfg.search_method = "semantic_search") :
    (full_text_branch env dataset_id query cfg).2 = [] := by
  unfold full_text_branch
  rw [if_neg (by rw [hm]; decide)]

/-! ### C3: strategy selection -/

/-- C3: on a non-empty dataset, `semantic_search` invokes only the semantic
strategy, `full_text_search` only the full-text strategy (no rerank in
either case), and `hybrid_search` invokes both strategies and the reranker
exactly once. -/
theorem retrieve_strategy_selection (env : Env) (dataset : Dataset) (query : String)
    (account : Account) (cfg : RetrievalConfig) (inst : ModelInstance)
    (hd : dataset.available_document_count ≠ 0)
    (hs : dataset.available_segment_count ≠ 0)
    (hemb : env.getModelInstance dataset.tenant_id ModelType.text_embedding
      dataset.embedding_model_provider dataset.embedding_model = .ok inst)
    (hrr : ∀ p m, ∃ ri,
      env.getModelInstance dataset.tenant_id ModelType.rerank p m = .ok ri) :
    (cfg.search_method = "semantic_search" →
      (retrieve_trace env dataset query account (some cfg)).countP Event.isSemantic = 1 ∧
      (retrieve_trace env dataset query account (some cfg)).countP Event.isFullText = 0 ∧
      (retrieve_trace env dataset query account (some cfg)).countP Event.isRerank = 0) ∧
    (cfg.search_method = "full_text_search" →
      (retrieve_trace env dataset query account (some cfg)).countP Event.isFullText = 1 ∧
      (retrieve_trace env dataset query account (some cfg)).countP Event.isSemantic = 0 ∧
      (retrieve_trace env dataset query account (some cfg)).countP Event.isRerank = 0) ∧
    (cfg.search_method = "hybrid_search" →
      (retrieve_trace env dataset query account (some cfg)).countP Event.isSemantic = 1 ∧
      (retrieve_trace env dataset query account (some cfg)).countP Event.isFullText = 1 ∧
      (retrieve_trace env dataset query account (some cfg)).countP Event.isRerank = 1) := by
  unfold retrieve_trace
  rw [retrieve_nonempty_eq env dataset query account cfg inst hd hs hemb]
  refine ⟨?_, ?_, ?_⟩ <;> intro hm
  · rw [finish_retrieve_not_hybrid env dataset query account cfg _ _ (by rw [hm]; decide)]
    rw [semantic_branch_selected env dataset.id query cfg (Or.inl hm),
      full_text_branch_skipped env dataset.id query cfg hm]
    rw [compact_events_eq]
    rcases projection_events_cases env query
        ((semantic_branch env dataset.id query cfg).1 ++
          (full_text_branch env dataset.id query cfg).1) with hp | hp <;>
      rw [hp] <;>
      simp [List.countP_append, List.countP_cons, Event.isSemantic, Event.isFullText,
        Event.isRerank, log_event]
  · rw [finish_retrieve_not_hybrid env dataset query account cfg _ _ (by rw [hm]; decide)]
    rw [semantic_branch_skipped env dataset.id query cfg hm,
      full_text_branch_selected env dataset.id query cfg (Or.inl hm)]
    rw [compact_events_eq]
    rcases projection_events_cases env query
        ((semantic_branch env dataset.id query cfg).1 ++
          (full_text_branch env dataset.id query cfg).1) with hp | hp <;>
      rw [hp] <;>
      simp [List.countP_append, List.countP_cons, Event.isSemantic, Event.isFullText,
        Event.isRerank, log_event]
  · obtain ⟨ri, hri⟩ := hrr cfg.reranking_model.reranking_provider_name
      cfg.reranking_model.reranking_model_name
    rw [finish_retrieve_hybrid env dataset query account cfg _ _ ri hm hri]
    rw [semantic_branch_selected env dataset.id query cfg (Or.inr hm),
      full_text_branch_selected env dataset.id query cfg (Or.inr hm)]
    rw [compact_events_eq]
    rcases projection_events_cases env query
        (env.rerankRun query
          ((semantic_branch env dataset.id query cfg).1 ++
            (full_text_branch env dataset.id query cfg).1)
          (score_threshold_arg cfg) cfg.top_k ("account-" ++ account.id)) with hp | hp <;>
      rw [hp] <;>
      simp [List.countP_append, List.countP_cons, Event.isSemantic, Event.isFullText,
        Event.isRerank, log_event]

/-- Witness for C3 at concrete configurations for all three methods. -/
theorem retrieve_strategy_selection_witness :
    (retrieve_trace testEnv testDataset "q" testAccount (some semanticConfig)).countP
        Event.isSemantic = 1 ∧
    (retrieve_trace testEnv testDataset "q" testAccount (some semanticConfig)).countP
        Event.isFullText = 0 ∧
    (retrieve_trace testEnv testDataset "q" testAccount (some fullTextConfig)).countP
        Event.isFullText = 1 ∧
    (retrieve_trace testEnv testDataset "q" testAccount (some fullTextConfig)).countP
        Event.isSemantic = 0 ∧
    (retrieve_trace testEnv testDataset "q" testAccount (some hybridConfig)).countP
        Event.isSemantic = 1 ∧
    (retrieve_trace testEnv testDataset "q" testAccount (some hybridConfig)).countP
        Event.isRerank = 1 :=
  ⟨((retrieve_strategy_selection testEnv testDataset "q" testAccount semanticConfig
      ⟨"m"⟩ (by decide) (by decide) rfl (fun _ _ => ⟨⟨"m"⟩, rfl⟩)).1 rfl).1,
    ((retrieve_strategy_selection testEnv testDataset "q" testAccount semanticConfig
      ⟨"m"⟩ (by decide) (by decide) rfl (fun _ _ => ⟨⟨"m"⟩, rfl⟩)).1 rfl).2.1,
    ((retrieve_strategy_selection testEnv testDataset "q" testAccount fullTextConfig
      ⟨"m"⟩ (by decide) (by decide) rfl (fun _ _ => ⟨⟨"m"⟩, rfl⟩)).2.1 rfl).1,
    ((retrieve_strategy_selection testEnv testDataset "q" testAccount fullTextConfig
      ⟨"m"⟩ (by decide) (by decide) rfl (fun _ _ => ⟨⟨"m"⟩, rfl⟩)).2.1 rfl).2.1,
    ((retrieve_strategy_selection testEnv testDataset "q" testAccount hybridConfig
      ⟨"m"⟩ (by decide) (by decide) rfl (fun _ _ => ⟨⟨"m"⟩, rfl⟩)).2.2 rfl).1,
    ((retrieve_strategy_selection testEnv testDataset "q" testAccount hybridConfig
      ⟨"m"⟩ (by decide) (by decide) rfl (fun _ _ => ⟨⟨"m"⟩, rfl⟩)).2.2 rfl).2.2⟩

/-! ### C6: unconditional log write, after rerank and before projection -/

/-- Events coming from the strategy fan-out are strategy events only. -/
theorem pre_events_mem (env : Env) (dataset_id query : String) (cfg : RetrievalConfig)
    (e : Event)
    (he : e ∈ (semantic_branch env dataset_id query cfg).2 ++
      (full_text_branch env dataset_id query cfg).2) :
    e = Event.semanticSearch ∨ e = Event.fullTextSearch := by
  rcases List.mem_append.mp he with h | h
  · rcases semantic_branch_events_cases env dataset_id query cfg with hc | hc <;>
      rw [hc] at h <;> simp at h
    exact Or.inl h
  · rcases full_text_branch_events_cases env dataset_id query cfg with hc | hc <;>
      rw [hc] at h <;> simp at h
    exact Or.inr h

/-- C6: on a non-empty dataset whose models resolve, the trace of
`retrieve` decomposes as `pre ++ [log write] ++ post` with no other log
write anywhere, no rerank call after the log write, and no solver
(projection) call before it: exactly one `DatasetQuery`
`{dataset_id, content = query, source = 'hit_testing', actor = account}`
is written, after reranking and before projection, whatever the
strategies returned (including zero fragments). -/
theorem retrieve_log_write_placement (env : Env) (dataset : Dataset) (query : String)
    (account : Account) (cfg : RetrievalConfig) (inst : ModelInstance)
    (hd : dataset.available_document_count ≠ 0)
    (hs : dataset.available_segment_count ≠ 0)
    (hemb : env.getModelInstance dataset.tenant_id ModelType.text_embedding
      dataset.embedding_model_provider dataset.embedding_model = .ok inst)
    (hrr : ∀ p m, ∃ ri,
      env.getModelInstance dataset.tenant_id ModelType.rerank p m = .ok ri) :
    ∃ pre post,
      retrieve_trace env dataset query account (some cfg) =
        pre ++ [Event.logWrite dataset.id query "hit_testing" "account" account.id] ++
          post ∧
      (∀ e ∈ pre, Event.isLogWrite e = false) ∧
      (∀ e ∈ post, Event.isLogWrite e = false) ∧
      (∀ e ∈ post, Event.isRerank e = false) ∧
      (∀ e ∈ pre, e ≠ Event.tsneSolve) := by
  unfold retrieve_trace
  rw [retrieve_nonempty_eq env dataset query account cfg inst hd hs hemb]
  by_cases hm : cfg.search_method = "hybrid_search"
  · obtain ⟨ri, hri⟩ := hrr cfg.reranking_model.reranking_provider_name
      cfg.reranking_model.reranking_model_name
    rw [finish_retrieve_hybrid env dataset query account cfg _ _ ri hm hri]
    refine ⟨((semantic_branch env dataset.id query cfg).2 ++
        (full_text_branch env dataset.id query cfg).2) ++ [Event.rerankCall],
      (compact_retrieve_response env dataset query
        (env.rerankRun query
          ((semantic_branch env dataset.id query cfg).1 ++
            (full_text_branch env dataset.id query cfg).1)
          (score_threshold_arg cfg) cfg.top_k ("account-" ++ account.id))).2,
      ?_, ?_, ?_, ?_, ?_⟩
    · show _ ++ _ :: _ :: _ ++ _ = _
      rw [log_event]
      simp
    · intro e he
      rcases List.mem_append.mp he with h | h
      · rcases pre_events_mem env dataset.id query cfg e h with rfl | rfl <;> rfl
      · simp at h
        subst h
        rfl
    · intro e he
      rw [compact_events_eq] at he
      rcases projection_events_cases env query _ with hp | hp <;> rw [hp] at he <;>
        simp at he
      subst he
      rfl
    · intro e he
      rw [compact_events_eq] at he
      rcases projection_events_cases env query _ with hp | hp <;> rw [hp] at he <;>
        simp at he
      subst he
      rfl
    · intro e he
      rcases List.mem_append.mp he with h | h
      · rcases pre_events_mem env dataset.id query cfg e h with rfl | rfl <;> simp
      · simp at h
        subst h
        simp
  · rw [finish_retrieve_not_hybrid env dataset query account cfg _ _ hm]
    refine ⟨(semantic_branch env dataset.id query cfg).2 ++
        (full_text_branch env dataset.id query cfg).2,
      (compact_retrieve_response env dataset query
        ((semantic_branch env dataset.id query cfg).1 ++
          (full_text_branch env dataset.id query cfg).1)).2,
      ?_, ?_, ?_, ?_, ?_⟩
    · rw [log_event]
    · intro e he
      rcases pre_events_mem env dataset.id query cfg e he with rfl | rfl <;> rfl
    · intro e he
      rw [compact_events_eq] at he
      rcases projection_events_cases env query _ with hp | hp <;> rw [hp] at he <;>
        simp at he
      subst he
      rfl
    · intro e he
      rw [compact_events_eq] at he
      rcases projection_events_cases env query _ with hp | hp <;> rw [hp] at he <;>
        simp at he
      subst he
      rfl
    · intro e he
      rcases pre_events_mem env dataset.id query cfg e he with rfl | rfl <;> simp

/-- Witness for C6 at the concrete hybrid configuration, where both
strategies return zero fragments. -/
theorem retrieve_log_write_placement_witness :
    testDataset.available_document_count ≠ 0 ∧
      ∃ pre post,
        retrieve_trace testEnv testDataset "q" testAccount (some hybridConfig) =
          pre ++ [Event.logWrite testDataset.id "q" "hit_testing" "account"
            testAccount.id] ++ post ∧
        (∀ e ∈ pre, Event.isLogWrite e = false) ∧
        (∀ e ∈ post, Event.isLogWrite e = false) ∧
        (∀ e ∈ post, Event.isRerank e = false) ∧
        (∀ e ∈ pre, e ≠ Event.tsneSolve) :=
  ⟨by decide,
    retrieve_log_write_placement testEnv testDataset "q" testAccount hybridConfig
      ⟨"m"⟩ (by decide) (by decide) rfl (fun _ _ => ⟨⟨"m"⟩, rfl⟩)⟩

/-! ### C1: fragment-record alignment under a dropped fragment -/

/-- C1: with 3 fragments where the 2nd has no matching stored segment
(dataset-scoped, enabled, status 'completed'), the response has exactly 2
records; the query takes overall position 0, the first record the second
overall position (index 1) and the second record the fourth overall
position (index 3): the dropped fragment's position slot is consumed. -/
theorem compact_fragment_record_alignment (env : Env) (dataset : Dataset)
    (query : String) (d1 d2 d3 : Document) (s1 s3 : DocumentSegment)
    (h1 : segment_lookup_first env.segments dataset.id d1.doc_id = some s1)
    (h2 : segment_lookup_first env.segments dataset.id d2.doc_id = none)
    (h3 : segment_lookup_first env.segments dataset.id d3.doc_id = some s3) :
    (compact_retrieve_response env dataset query [d1, d2, d3]).1.query.tsne_position =
      (projection_output env query [d1, d2, d3]).1.getD 0 zero_position ∧
    (compact_retrieve_response env dataset query [d1, d2, d3]).1.records =
      [{ segment := s1, score := d1.score,
         tsne_position :=
           (projection_output env query [d1, d2, d3]).1.getD 1 zero_position },
       { segment := s3, score := d3.score,
         tsne_position :=
           (projection_output env query [d1, d2, d3]).1.getD 3 zero_position }] ∧
    (compact_retrieve_response env dataset query [d1, d2, d3]).1.records.length = 2 := by
  have hrec : (compact_retrieve_response env dataset query [d1, d2, d3]).1.records =
      [{ segment := s1, score := d1.score,
         tsne_position :=
           (projection_output env query [d1, d2, d3]).1.getD 1 zero_position },
       { segment := s3, score := d3.score,
         tsne_position :=
           (projection_output env query [d1, d2, d3]).1.getD 3 zero_position }] := by
    show buildRecords env.segments dataset.id
        (projection_output env query [d1, d2, d3]).1.tail [d1, d2, d3] 0 = _
    simp only [buildRecords, h1, h2, h3]
    rw [List.tail_getD, List.tail_getD]
  refine ⟨?_, hrec, by rw [hrec]; rfl⟩
  show (projection_output env query [d1, d2, d3]).1.headD zero_position = _
  exact List.headD_eq_getD_zero _ _

def segA : DocumentSegment :=
  { dataset_id := "ds1", enabled := true, status := "completed", index_node_id := "a" }

def segC : DocumentSegment :=
  { dataset_id := "ds1", enabled := true, status := "completed", index_node_id := "c" }

def docA : Document := { page_content := "ta", doc_id := "a", score := some 1 }

def docB : Document := { page_content := "tb", doc_id := "b", score := some (1 / 2) }

def docC : Document := { page_content := "tc", doc_id := "c", score := none }

/-- An environment storing segments only for fragments `a` and `c`. -/
def alignEnv : Env := { testEnv with segments := [segA, segC] }

/-- Witness for C1: fragment `b` has no stored segment, so only two records
survive, carrying overall positions 1 and 3. -/
theorem compact_fragment_record_alignment_witness :
    segment_lookup_first alignEnv.segments testDataset.id docB.doc_id = none ∧
      (compact_retrieve_response alignEnv testDataset "q" [docA, docB, docC]).1.records =
        [{ segment := segA, score := docA.score,
           tsne_position :=
             (projection_output alignEnv "q" [docA, docB, docC]).1.getD 1 zero_position },
         { segment := segC, score := docC.score,
           tsne_position :=
             (projection_output alignEnv "q" [docA, docB, docC]).1.getD 3 zero_position }] ∧
      (compact_retrieve_response alignEnv testDataset "q" [docA, docB, docC]).1.records.length
        = 2 :=
  ⟨by decide,
    (compact_fragment_record_alignment alignEnv testDataset "q" docA docB docC segA segC
      (by decide) (by decide) (by decide)).2.1,
    (compact_fragment_record_alignment alignEnv testDataset "q" docA docB docC segA segC
      (by decide) (by decide) (by decide)).2.2⟩

/-! ### C4: degenerate-vector correction -/

theorem perturbEmbeddings_length (noise : Nat → Nat → ℚ) (q : List ℚ)
    (docs : List (List ℚ)) (k : Nat) :
    (perturbEmbeddings noise q docs k).length = docs.length := by
  induction docs generalizing k with
  | nil => rfl
  | cons e es ih =>
      show (perturbEmbeddings noise q es (k + 1)).length + 1 = es.length + 1
      rw [ih]

theorem perturbEmbeddings_getD (noise : Nat → Nat → ℚ) (q : List ℚ)
    (docs : List (List ℚ)) (k i : Nat) (hi : i < docs.length) :
    (perturbEmbeddings noise q docs k).getD i [] =
      if docs.getD i [] = q then
        addVec (docs.getD i [])
          (perturbationFor noise (k + i) (docs.getD i []).length)
      else docs.getD i [] := by
  induction docs generalizing k i with
  | nil => exact absurd hi (by simp)
  | cons e es ih =>
      cases i with
      | zero => rfl
      | succ i =>
          have hi' : i < es.length := by simpa using hi
          show (perturbEmbeddings noise q es (k + 1)).getD i [] = _
          rw [ih (k + 1) i hi']
          have harith : k + 1 + i = k + (i + 1) := by omega
          rw [harith]
          rfl

theorem perturbationFor_length (noise : Nat → Nat → ℚ) (i n : Nat) :
    (perturbationFor noise i n).length = n := by
  simp [perturbationFor]

theorem addVec_length (v p : List ℚ) :
    (addVec v p).length = min v.length p.length := by
  simp [addVec]

theorem addVec_getD (q p : List ℚ) (j : Nat) (hj : j < q.length)
    (hl : p.length = q.length) :
    (addVec q p).getD j 0 = q.getD j 0 + p.getD j 0 := by
  induction q generalizing p j with
  | nil => exact absurd hj (by simp)
  | cons a q' ih =>
      cases p with
      | nil => exact absurd hl (by simp)
      | cons b p' =>
          cases j with
          | zero => rfl
          | succ j =>
              have hj' : j < q'.length := by simpa using hj
              have hl' : p'.length = q'.length := by simpa using hl
              exact ih p' j hj' hl'

theorem perturbationFor_getD (noise : Nat → Nat → ℚ) (i n j : Nat) (hj : j < n) :
    (perturbationFor noise i n).getD j 0 = noise i j := by
  have hlen : j < (perturbationFor noise i n).length := by
    rw [perturbationFor_length]
    exact hj
  rw [List.getD_eq_getElem _ _ hlen]
  simp [perturbationFor]

theorem distSq_cons (x y : ℚ) (u v : List ℚ) :
    distSq (x :: u) (y :: v) = (x - y) ^ 2 + distSq u v := by
  unfold distSq
  rw [List.zipWith_cons_cons, List.sum_cons]

theorem distSq_addVec (q p : List ℚ) (hl : p.length = q.length) :
    distSq (addVec q p) q = (p.map fun x => x ^ 2).sum := by
  induction q generalizing p with
  | nil =>
      cases p with
      | nil => rfl
      | cons b p' => exact absurd hl (by simp)
  | cons a q' ih =>
      cases p with
      | nil => exact absurd hl (by simp)
      | cons b p' =>
          have hl' : p'.length = q'.length := by simpa using hl
          have hstep : addVec (a :: q') (b :: p') = (a + b) :: addVec q' p' := rfl
          rw [hstep, distSq_cons, ih p' hl', List.map_cons, List.sum_cons]
          ring_nf

theorem sum_sq_le (p : List ℚ) (c : ℚ) (h : ∀ x ∈ p, |x| ≤ c) :
    (p.map fun x => x ^ 2).sum ≤ (p.length : ℚ) * c ^ 2 := by
  induction p with
  | nil => simp
  | cons x xs ih =>
      have hx : x ^ 2 ≤ c ^ 2 := by
        have := abs_le.mp (h x (by simp))
        exact sq_le_sq' this.1 this.2
      have hxs : (xs.map fun x => x ^ 2).sum ≤ (xs.length : ℚ) * c ^ 2 :=
        ih fun y hy => h y (by simp [hy])
      have hcast : ((x :: xs).length : ℚ) * c ^ 2 = (xs.length : ℚ) * c ^ 2 + c ^ 2 := by
        push_cast [List.length_cons]
        ring
      rw [List.map_cons, List.sum_cons, hcast]
      linarith

/-- C4: the correction loop changes exactly the fragment embeddings that
equal the query embedding elementwise.  An unequal embedding passes
through unchanged; an equal one becomes `F + perturbation` with its
dimensionality preserved, differs from the query whenever some noise
component is nonzero, and its squared Euclidean distance to the original
is at most `dim * c^2` when every noise component is bounded by `c`
(`c = O(1e-4)` for the source's `normal(0, 1e-4)` draw). -/
theorem perturb_embeddings_correction (noise : Nat → Nat → ℚ) (q : List ℚ)
    (docs : List (List ℚ)) (i : Nat) (c : ℚ)
    (hi : i < docs.length)
    (hc : ∀ j, |noise i j| ≤ c) :
    (perturbEmbeddings noise q docs 0).length = docs.length ∧
    (docs.getD i [] ≠ q →
      (perturbEmbeddings noise q docs 0).getD i [] = docs.getD i []) ∧
    (docs.getD i [] = q →
      (perturbEmbeddings noise q docs 0).getD i [] =
        addVec q (perturbationFor noise i q.length) ∧
      ((perturbEmbeddings noise q docs 0).getD i []).length = q.length ∧
      ((∃ j, j < q.length ∧ noise i j ≠ 0) →
        (perturbEmbeddings noise q docs 0).getD i [] ≠ q) ∧
      distSq ((perturbEmbeddings noise q docs 0).getD i []) q ≤
        (q.length : ℚ) * c ^ 2) := by
  have hbase := perturbEmbeddings_getD noise q docs 0 i hi
  rw [Nat.zero_add] at hbase
  refine ⟨perturbEmbeddings_length noise q docs 0, ?_, ?_⟩
  · intro hne
    rw [hbase, if_neg hne]
  · intro heq
    have hres : (perturbEmbeddings noise q docs 0).getD i [] =
        addVec q (perturbationFor noise i q.length) := by
      rw [hbase, if_pos heq, heq]
    have hplen : (perturbationFor noise i q.length).length = q.length :=
      perturbationFor_length noise i q.length
    refine ⟨hres, ?_, ?_, ?_⟩
    · rw [hres, addVec_length, hplen]
      exact Nat.min_self q.length
    · rintro ⟨j, hj, hnz⟩ habs
      rw [hres] at habs
      have := addVec_getD q (perturbationFor noise i q.length) j hj hplen
      rw [habs] at this
      rw [perturbationFor_getD noise i q.length j hj] at this
      exact hnz (by linarith)
    · rw [hres, distSq_addVec q (perturbationFor noise i q.length) hplen]
      have hsum := sum_sq_le (perturbationFor noise i q.length) c ?_
      · rw [hplen] at hsum
        exact hsum
      · intro x hx
        simp only [perturbationFor, List.mem_map, List.mem_range] at hx
        obtain ⟨j, _, rfl⟩ := hx
        exact hc j

/-- The constant noise draw `1e-4` used by the witness. -/
def constNoise : Nat → Nat → ℚ := fun _ _ => 1 / 10000

theorem constNoise_bound (i j : Nat) : |constNoise i j| ≤ 1 / 10000 := by
  show |(1 : ℚ) / 10000| ≤ 1 / 10000
  rw [abs_of_nonneg (by norm_num)]

theorem constNoise_ne_zero (i j : Nat) : constNoise i j ≠ 0 := by
  show (1 : ℚ) / 10000 ≠ 0
  norm_num

/-- Witness for C4: of two fragment embeddings, the first equals the query
`[1, 2]` and is perturbed (staying within the noise bound), while the
second, `[3, 4]`, is returned unchanged. -/
theorem perturb_embeddings_correction_witness :
    (perturbEmbeddings constNoise [(1 : ℚ), 2] [[(1 : ℚ), 2], [3, 4]] 0).length = 2 ∧
      (perturbEmbeddings constNoise [(1 : ℚ), 2] [[(1 : ℚ), 2], [3, 4]] 0).getD 0 [] =
        addVec [(1 : ℚ), 2] (perturbationFor constNoise 0 2) ∧
      ((perturbEmbeddings constNoise [(1 : ℚ), 2] [[(1 : ℚ), 2], [3, 4]] 0).getD 0
        []).length = 2 ∧
      (perturbEmbeddings constNoise [(1 : ℚ), 2] [[(1 : ℚ), 2], [3, 4]] 0).getD 0 [] ≠
        [(1 : ℚ), 2] ∧
      distSq ((perturbEmbeddings constNoise [(1 : ℚ), 2] [[(1 : ℚ), 2], [3, 4]] 0).getD 0
        []) [(1 : ℚ), 2] ≤ (2 : ℚ) * (1 / 10000) ^ 2 ∧
      (perturbEmbeddings constNoise [(1 : ℚ), 2] [[(1 : ℚ), 2], [3, 4]] 0).getD 1 [] =
        [(3 : ℚ), 4] :=
  ⟨(perturb_embeddings_correction constNoise [(1 : ℚ), 2] [[(1 : ℚ), 2], [3, 4]] 0
      (1 / 10000) (by decide) (constNoise_bound 0)).1,
    ((perturb_embeddings_correction constNoise [(1 : ℚ), 2] [[(1 : ℚ), 2], [3, 4]] 0
      (1 / 10000) (by decide) (constNoise_bound 0)).2.2 rfl).1,
    ((perturb_embeddings_correction constNoise [(1 : ℚ), 2] [[(1 : ℚ), 2], [3, 4]] 0
      (1 / 10000) (by decide) (constNoise_bound 0)).2.2 rfl).2.1,
    ((perturb_embeddings_correction constNoise [(1 : ℚ), 2] [[(1 : ℚ), 2], [3, 4]] 0
      (1 / 10000) (by decide) (constNoise_bound 0)).2.2 rfl).2.2.1
      ⟨0, by decide, constNoise_ne_zero 0 0⟩,
    ((perturb_embeddings_correction constNoise [(1 : ℚ), 2] [[(1 : ℚ), 2], [3, 4]] 0
      (1 / 10000) (by decide) (constNoise_bound 0)).2.2 rfl).2.2.2,
    (perturb_embeddings_correction constNoise [(1 : ℚ), 2] [[(1 : ℚ), 2], [3, 4]] 1
      (1 / 10000) (by decide) (constNoise_bound 1)).2.1 (by norm_num)⟩

end HitTesting
